import Mathlib

/-!
Verification of the pyethereum wire protocol module (`pyethereum/wire.py`):
integer codecs, packet framing, command tables, and the Hello/Ping/Pong/
Disconnect dispatch logic, shallowly embedded over lists of bytes
(`List Nat`, each entry a byte value) with Python exceptions modelled as
`Except` errors.
-/

deriving instance DecidableEq for Except

/-- Python exception kinds that the embedded code can raise. -/
inductive PyErr where
  | structError
  | assertionError
  | keyError
  | indexError
  | typeError
  | attributeError
  | rlpError
  deriving DecidableEq, Repr

/-- Modelled from the spec: `utils.big_endian_to_int` (imported as `idec`),
which is not under `src/`. Interprets a byte sequence as a big-endian
unsigned integer; the empty sequence decodes to 0. -/
def idec (s : List Nat) : Nat :=
  s.foldl (fun a b => 256 * a + b) 0

/-- Fuel-driven worker producing the shortest big-endian byte sequence of a
positive integer (fuel at least the value itself always suffices). -/
def beAux : Nat → Nat → List Nat
  | 0, _ => []
  | _ + 1, 0 => []
  | f + 1, n => beAux f (n / 256) ++ [n % 256]

/-- Modelled from the spec: `utils.int_to_big_endian` (imported as `_ienc`),
which is not under `src/`. Shortest big-endian byte representation. -/
def int_to_big_endian (n : Nat) : List Nat :=
  beAux n n

/-- `ienc` from wire.py line 6: zero is encoded as the empty string. -/
def ienc (x : Nat) : List Nat :=
  if x ≠ 0 then int_to_big_endian x else []

/-- `ienc4` from wire.py line 13: `struct.pack('>i', x)`, a SIGNED 4-byte
big-endian pack; for a non-negative argument it succeeds exactly on
`[0, 2^31)` and raises `struct.error` otherwise. -/
def ienc4 (x : Nat) : Except PyErr (List Nat) :=
  if x < 2 ^ 31 then
    Except.ok [x / 16777216 % 256, x / 65536 % 256, x / 256 % 256, x % 256]
  else
    Except.error PyErr.structError

/-- A Python value as used in wire.py payload lists: integers, byte strings,
`None`, and lists (modelled as nil/cons chains so that all recursion over
nested payloads stays structural). -/
inductive PyVal where
  | int : Nat → PyVal
  | str : List Nat → PyVal
  | none : PyVal
  | nil : PyVal
  | cons : PyVal → PyVal → PyVal
  deriving DecidableEq, Repr

/-- Builds the Python-list value holding the given elements. -/
def pyList (l : List PyVal) : PyVal :=
  l.foldr PyVal.cons PyVal.nil

/-- Length of a Python list value (0 on non-lists). -/
def pyLen : PyVal → Nat
  | PyVal.cons _ rest => 1 + pyLen rest
  | _ => 0

/-- Last element of a Python list value. -/
def pyLast : PyVal → Option PyVal
  | PyVal.cons e PyVal.nil => some e
  | PyVal.cons _ rest => pyLast rest
  | _ => Option.none

/-- Python truthiness for the values above: 0, empty strings, `None` and
empty lists are falsy. -/
def pyTruthy : PyVal → Bool
  | PyVal.int n => n != 0
  | PyVal.str s => !s.isEmpty
  | PyVal.none => false
  | PyVal.nil => false
  | PyVal.cons _ _ => true

/-- `list_ienc` from wire.py line 15: recursively big-endian encode all
integers in a list (the source only ever applies it to lists; non-list
arguments pass through unchanged here). -/
def list_ienc : PyVal → PyVal
  | PyVal.cons (PyVal.int n) rest => PyVal.cons (PyVal.str (ienc n)) (list_ienc rest)
  | PyVal.cons (PyVal.cons x y) rest => PyVal.cons (list_ienc (PyVal.cons x y)) (list_ienc rest)
  | PyVal.cons PyVal.nil rest => PyVal.cons PyVal.nil (list_ienc rest)
  | PyVal.cons e rest => PyVal.cons e (list_ienc rest)
  | v => v

/-- A decoded structured-codec value: a byte string or a nested list, the
shape returned by `rlp.decode`. -/
inductive Item where
  | str : List Nat → Item
  | list : List Item → Item

/-- `len(data)` for a decoded value: string length or list length. -/
def itemLen : Item → Nat
  | Item.str s => s.length
  | Item.list l => l.length

/-- `data[i]` on a decoded list, raising IndexError out of range. -/
def listIdx (l : List Item) (i : Nat) : Except PyErr Item :=
  match l[i]? with
  | some x => Except.ok x
  | Option.none => Except.error PyErr.indexError

/-- `data[i]` on a decoded value; indexing a Python string yields a
one-character string. -/
def itemIdx : Item → Nat → Except PyErr Item
  | Item.str s, i =>
    match s[i]? with
    | some b => Except.ok (Item.str [b])
    | Option.none => Except.error PyErr.indexError
  | Item.list l, i => listIdx l i

/-- `idec` applied to a decoded field: big-endian decoding of a byte string;
applying it to a nested list raises TypeError as in Python. -/
def idecItem : Item → Except PyErr Nat
  | Item.str s => Except.ok (idec s)
  | Item.list _ => Except.error PyErr.typeError

/-- One insertion step of Python `dict(...)` construction: a later pair with
an already-present key overwrites the earlier value. -/
def pyDictInsert {α β : Type} [BEq α] (d : List (α × β)) (k : α) (v : β) : List (α × β) :=
  if d.any (fun p => p.1 == k) then d.map (fun p => if p.1 == k then (k, v) else p)
  else d ++ [(k, v)]

/-- Python `dict(pairs)` built left to right from an association list. -/
def pyDict {α β : Type} [BEq α] (ps : List (α × β)) : List (α × β) :=
  ps.foldl (fun d kv => pyDictInsert d kv.1 kv.2) []

/-- Dictionary lookup (`d.get(k)` / `k in d`). -/
def dictGet {α β : Type} [BEq α] (d : List (α × β)) (k : α) : Option β :=
  match d.find? (fun p => p.1 == k) with
  | some p => some p.2
  | Option.none => Option.none

/-- Length-prefix wrapper of the structured codec: short payloads get a
single `base + len` byte, longer ones a `base + 55 + len-of-len` byte
followed by the big-endian length. -/
def rlpWithLen (base : Nat) (payload : List Nat) : List Nat :=
  if payload.length ≤ 55 then (base + payload.length) :: payload
  else
    (base + 55 + (int_to_big_endian payload.length).length) ::
      (int_to_big_endian payload.length ++ payload)

/-- Encoding of one byte string by the structured codec: a single byte below
0x80 stands for itself, anything else is length-prefixed. -/
def rlpStr (s : List Nat) : List Nat :=
  match s with
  | [b] => if b < 0x80 then [b] else rlpWithLen 0x80 [b]
  | _ => rlpWithLen 0x80 s

/-- Modelled from the spec: the external Structured Codec (`rlp.encode`,
the repository's rlp module is not under `src/`). Encodes the elements of a
Python list value, concatenating the element encodings; integers and `None`
are not encodable (the caller converts integers via `list_ienc` first). -/
def rlpEncodeItems : PyVal → Except PyErr (List Nat)
  | PyVal.nil => Except.ok []
  | PyVal.cons (PyVal.int _) _ => Except.error PyErr.typeError
  | PyVal.cons PyVal.none _ => Except.error PyErr.typeError
  | PyVal.cons (PyVal.str s) rest =>
    match rlpEncodeItems rest with
    | Except.ok b => Except.ok (rlpStr s ++ b)
    | Except.error e => Except.error e
  | PyVal.cons PyVal.nil rest =>
    match rlpEncodeItems rest with
    | Except.ok b => Except.ok (rlpWithLen 0xc0 [] ++ b)
    | Except.error e => Except.error e
  | PyVal.cons (PyVal.cons x y) rest =>
    match rlpEncodeItems (PyVal.cons x y), rlpEncodeItems rest with
    | Except.ok p, Except.ok b => Except.ok (rlpWithLen 0xc0 p ++ b)
    | Except.error e, _ => Except.error e
    | _, Except.error e => Except.error e
  | PyVal.int _ => Except.error PyErr.typeError
  | PyVal.str _ => Except.error PyErr.typeError
  | PyVal.none => Except.error PyErr.typeError

/-- Modelled from the spec: `rlp.encode` of a whole value; wire.py only ever
encodes lists, which become their length-prefixed element concatenation. -/
def rlpEncode : PyVal → Except PyErr (List Nat)
  | PyVal.str s => Except.ok (rlpStr s)
  | PyVal.int _ => Except.error PyErr.typeError
  | PyVal.none => Except.error PyErr.typeError
  | v =>
    match rlpEncodeItems v with
    | Except.ok p => Except.ok (rlpWithLen 0xc0 p)
    | Except.error e => Except.error e

/-- Modelled from the spec: the Structured Codec reader. Decodes a SEQUENCE
of items consuming the entire input; `fuel` bounds the recursion depth and
any value at least `input length + 1` is sufficient. -/
def rlpRun : Nat → List Nat → Except PyErr (List Item)
  | _, [] => Except.ok []
  | 0, _ => Except.error PyErr.rlpError
  | f + 1, b :: rest =>
    if b < 0x80 then
      match rlpRun f rest with
      | Except.ok its => Except.ok (Item.str [b] :: its)
      | Except.error e => Except.error e
    else if b ≤ 0xb7 then
      let n := b - 0x80
      if n ≤ rest.length then
        match rlpRun f (rest.drop n) with
        | Except.ok its => Except.ok (Item.str (rest.take n) :: its)
        | Except.error e => Except.error e
      else Except.error PyErr.rlpError
    else if b ≤ 0xbf then
      let ll := b - 0xb7
      if ll ≤ rest.length then
        let n := idec (rest.take ll)
        let r2 := rest.drop ll
        if n ≤ r2.length then
          match rlpRun f (r2.drop n) with
          | Except.ok its => Except.ok (Item.str (r2.take n) :: its)
          | Except.error e => Except.error e
        else Except.error PyErr.rlpError
      else Except.error PyErr.rlpError
    else if b ≤ 0xf7 then
      let n := b - 0xc0
      if n ≤ rest.length then
        match rlpRun f (rest.take n), rlpRun f (rest.drop n) with
        | Except.ok inner, Except.ok its => Except.ok (Item.list inner :: its)
        | Except.error e, _ => Except.error e
        | _, Except.error e => Except.error e
      else Except.error PyErr.rlpError
    else
      let ll := b - 0xf7
      if ll ≤ rest.length then
        let n := idec (rest.take ll)
        let r2 := rest.drop ll
        if n ≤ r2.length then
          match rlpRun f (r2.take n), rlpRun f (r2.drop n) with
          | Except.ok inner, Except.ok its => Except.ok (Item.list inner :: its)
          | Except.error e, _ => Except.error e
          | _, Except.error e => Except.error e
        else Except.error PyErr.rlpError
      else Except.error PyErr.rlpError

/-- Modelled from the spec: `rlp.decode`, which must yield exactly one
structured value for the given bytes or fail. -/
def rlpDecode (bs : List Nat) : Except PyErr Item :=
  match rlpRun (bs.length + 1) bs with
  | Except.ok [it] => Except.ok it
  | Except.ok _ => Except.error PyErr.rlpError
  | Except.error e => Except.error e

/-- `cmd_map` pair list exactly as written in wire.py lines 44-54; note the
repeated key 0x02 (Ping, then Pong). -/
def cmd_map_pairs : List (Nat × String) :=
  [(0x00, "Hello"), (0x01, "Disconnect"), (0x02, "Ping"), (0x02, "Pong"),
   (0x10, "GetPeers"), (0x11, "Peers"), (0x12, "Transactions"),
   (0x13, "Blocks"), (0x14, "GetChain"), (0x15, "NotInChain"),
   (0x16, "GetTransactions")]

/-- `WireProtocol.cmd_map`: the Python dict built from `cmd_map_pairs`. -/
def cmd_map : List (Nat × String) :=
  pyDict cmd_map_pairs

/-- `WireProtocol.cmd_map_by_name`: the reversed command dict. -/
def cmd_map_by_name : List (String × Nat) :=
  pyDict (cmd_map.map (fun p => (p.2, p.1)))

/-- `WireProtocol.disconnect_reasons_map` from wire.py lines 57-66. -/
def disconnect_reasons_map : List (String × Nat) :=
  pyDict
    [("Disconnect requested", 0x00), ("TCP sub-system error", 0x01),
     ("Bad protocol", 0x02), ("Useless peer", 0x03), ("Too many peers", 0x04),
     ("Already connected", 0x05), ("Wrong genesis block", 0x06),
     ("Incompatible network protocols", 0x07), ("Client quitting", 0x08)]

/-- `WireProtocol.disconnect_reasons_map_by_id`. -/
def disconnect_reasons_map_by_id : List (Nat × String) :=
  pyDict (disconnect_reasons_map.map (fun p => (p.2, p.1)))

/-- `WireProtocol.SYNCHRONIZATION_TOKEN`. -/
def SYNCHRONIZATION_TOKEN : Nat := 0x22400891

/-- `WireProtocol.PROTOCOL_VERSION`. -/
def PROTOCOL_VERSION : Nat := 0x08

/-- `WireProtocol.NETWORK_ID`. -/
def NETWORK_ID : Nat := 0

/-- `WireProtocol.CLIENT_ID`, the bytes of the string Ethereum(py)/0.0.1. -/
def CLIENT_ID : List Nat :=
  [69, 116, 104, 101, 114, 101, 117, 109, 40, 112, 121, 41, 47, 48, 46, 48, 46, 49]

/-- `WireProtocol.CAPABILITIES`. -/
def CAPABILITIES : Nat := 0x01 + 0x02 + 0x04

/-- The first class-level binding of `NODE_ID` (wire.py line 75). -/
def NODE_ID_initial : PyVal := PyVal.none

/-- The 64 bytes of the string literal rebound to `NODE_ID` on wire.py
line 78. -/
def NODE_ID_bytes : List Nat :=
  [0x4a, 0x02, 0x55, 0xfa, 0x46, 0x73, 0xfa, 0xa3, 0x0f, 0xc5, 0xab, 0xfd,
   0x3c, 0x55, 0x0b, 0xfd, 0xbc, 0x0d, 0x3c, 0x97, 0x3d, 0x35, 0xf7, 0x26,
   0x46, 0x3a, 0xf8, 0x1c, 0x54, 0xa0, 0x32, 0x81, 0xcf, 0xff, 0x22, 0xc5,
   0xf5, 0x96, 0x5b, 0x38, 0xac, 0x63, 0x01, 0x52, 0x98, 0x77, 0x57, 0xa3,
   0x17, 0x82, 0x47, 0x85, 0x49, 0xc3, 0x6f, 0x7c, 0x84, 0xcb, 0x44, 0x36,
   0xba, 0x79, 0xd6, 0xd9]

/-- `WireProtocol.NODE_ID` after the immediate rebinding on line 78: the
class attribute the methods actually see. -/
def NODE_ID : PyVal := PyVal.str NODE_ID_bytes

/-- Per-peer handshake flags, owned by the external peer object. -/
structure Peer where
  hello_sent : Bool
  hello_received : Bool
  deriving DecidableEq, Repr

/-- Externally visible side effects of a handler run: a call to the
transport (`peer.send_packet`, recording both the field list handed to
`send_packet` and the framed bytes) or to the peer registry
(`peermgr.remove_peer`). -/
inductive Event where
  | sent : PyVal → List Nat → Event
  | removedPeer : Event
  deriving DecidableEq, Repr

/-- The configuration the dispatcher reads: `config.getint('server', 'port')`. -/
structure Config where
  port : Nat
  deriving DecidableEq, Repr

/-- `WireProtocol.send_packet` (wire.py lines 125-135): rlp-encode the
integer-converted field list, prepend the sync token and the payload
length, and hand the bytes to the transport. -/
def send_packet (peer : Peer) (data : PyVal) : Except PyErr (Peer × List Event) :=
  match rlpEncode (list_ienc data) with
  | Except.error e => Except.error e
  | Except.ok payload =>
    match ienc4 SYNCHRONIZATION_TOKEN with
    | Except.error e => Except.error e
    | Except.ok tok =>
      match ienc4 payload.length with
      | Except.error e => Except.error e
      | Except.ok lenBytes =>
        Except.ok (peer, [Event.sent data (tok ++ lenBytes ++ payload)])

/-- `WireProtocol.send_Disconnect` (wire.py lines 219-233): asserts that a
truthy reason is in the reason table, then sends `[0x01]` or
`[0x01, reason_code]`. -/
def send_Disconnect (peer : Peer) (reason : Option String) : Except PyErr (Peer × List Event) :=
  match reason with
  | Option.none => send_packet peer (pyList [PyVal.int 0x01])
  | some s =>
    if s = "" then send_packet peer (pyList [PyVal.int 0x01])
    else
      match dictGet disconnect_reasons_map s with
      | some code => send_packet peer (pyList [PyVal.int 0x01, PyVal.int code])
      | Option.none => Except.error PyErr.assertionError

/-- The payload list built inside `send_Hello` (wire.py lines 139-146),
including the conditional `NODE_ID` append. -/
def send_Hello_payload (cfg : Config) : PyVal :=
  pyList
    (if pyTruthy NODE_ID then
      [PyVal.int 0x00, PyVal.int PROTOCOL_VERSION, PyVal.int NETWORK_ID,
       PyVal.str CLIENT_ID, PyVal.int cfg.port, PyVal.int CAPABILITIES, NODE_ID]
    else
      [PyVal.int 0x00, PyVal.int PROTOCOL_VERSION, PyVal.int NETWORK_ID,
       PyVal.str CLIENT_ID, PyVal.int cfg.port, PyVal.int CAPABILITIES])

/-- `WireProtocol.send_Hello` (wire.py lines 137-149): send the Hello
payload, then set `hello_sent`. -/
def send_Hello (cfg : Config) (peer : Peer) : Except PyErr (Peer × List Event) :=
  match send_packet peer (send_Hello_payload cfg) with
  | Except.error e => Except.error e
  | Except.ok (p, evs) => Except.ok ({p with hello_sent := true}, evs)

/-- `WireProtocol.rcv_Hello` (wire.py lines 151-197): version and network
checks, then the handshake flag updates and the conditional Hello reply. -/
def rcv_Hello (cfg : Config) (peer : Peer) (data : List Item) : Except PyErr (Peer × List Event) :=
  match listIdx data 0 with
  | Except.error e => Except.error e
  | Except.ok f0 =>
    match idecItem f0 with
    | Except.error e => Except.error e
    | Except.ok v =>
      if v ≠ PROTOCOL_VERSION then
        send_Disconnect peer (some "Incompatible network protocols")
      else
        match listIdx data 1 with
        | Except.error e => Except.error e
        | Except.ok f1 =>
          match idecItem f1 with
          | Except.error e => Except.error e
          | Except.ok w =>
            if w ≠ NETWORK_ID then send_Disconnect peer (some "Wrong genesis block")
            else
              let p2 := {peer with hello_received := true}
              if !p2.hello_sent then send_Hello cfg p2
              else Except.ok (p2, [])

/-- `WireProtocol.send_Ping` (wire.py lines 199-204). -/
def send_Ping (peer : Peer) : Except PyErr (Peer × List Event) :=
  send_packet peer (pyList [PyVal.int 0x02])

/-- `WireProtocol.send_Pong` (wire.py lines 209-214). -/
def send_Pong (peer : Peer) : Except PyErr (Peer × List Event) :=
  send_packet peer (pyList [PyVal.int 0x03])

/-- `WireProtocol.rcv_Ping` (wire.py lines 206-207): reply with Pong. -/
def rcv_Ping (peer : Peer) (data : List Item) : Except PyErr (Peer × List Event) :=
  send_Pong peer

/-- `WireProtocol.rcv_Pong` (wire.py lines 216-217): a no-op. -/
def rcv_Pong (peer : Peer) (data : List Item) : Except PyErr (Peer × List Event) :=
  Except.ok (peer, [])

/-- `WireProtocol.rcv_Disconnect` (wire.py lines 235-238): subscripting the
reason table with an unknown code raises KeyError; otherwise the peer
registry removes the peer. -/
def rcv_Disconnect (peer : Peer) (data : List Item) : Except PyErr (Peer × List Event) :=
  match data with
  | [] => Except.ok (peer, [Event.removedPeer])
  | x :: _ =>
    match idecItem x with
    | Except.error e => Except.error e
    | Except.ok n =>
      match dictGet disconnect_reasons_map_by_id n with
      | some _ => Except.ok (peer, [Event.removedPeer])
      | Option.none => Except.error PyErr.keyError

/-- The `getattr(self, "rcv_%s" % name)(peer, data)` step of `rcv_packet`,
together with the preceding `hasattr` check: commands without a bound
`rcv_` method are logged and ignored. -/
def rcv_dispatch (cfg : Config) (peer : Peer) (name : String) (data : List Item) :
    Except PyErr (Peer × List Event) :=
  if name = "Hello" then rcv_Hello cfg peer data
  else if name = "Ping" then rcv_Ping peer data
  else if name = "Pong" then rcv_Pong peer data
  else if name = "Disconnect" then rcv_Disconnect peer data
  else Except.ok (peer, [])

/-- `WireProtocol.rcv_packet` (wire.py lines 84-123): header check, the
`assert 8 + payload_len <= len(packet)` guard, rlp decoding, the command
check, and dispatch. -/
def rcv_packet (cfg : Config) (peer : Peer) (packet : List Nat) : Except PyErr (Peer × List Event) :=
  if packet.take (ienc SYNCHRONIZATION_TOKEN).length ≠ ienc SYNCHRONIZATION_TOKEN then
    send_Disconnect peer (some "Bad protocol")
  else
    let payload_len := idec ((packet.drop 4).take 4)
    if ¬ 8 + payload_len ≤ packet.length then Except.error PyErr.assertionError
    else
      match rlpDecode ((packet.drop 8).take payload_len) with
      | Except.error e => Except.error e
      | Except.ok data =>
        if itemLen data = 0 then send_Disconnect peer (some "Bad protocol")
        else
          match itemIdx data 0 with
          | Except.error e => Except.error e
          | Except.ok f =>
            match idecItem f with
            | Except.error e => Except.error e
            | Except.ok cmdId =>
              match dictGet cmd_map cmdId with
              | Option.none => send_Disconnect peer (some "Bad protocol")
              | some name =>
                match data with
                | Item.str _ => Except.error PyErr.attributeError
                | Item.list items => rcv_dispatch cfg peer name items.tail

/-- The result of the diagnostic decoder: the parsed
`[header, payload_len, cmd, fields...]` list or the
`['DUMP Failed', packet]` sentinel. -/
inductive DumpResult where
  | parsed : Nat → Nat → String → List Item → DumpResult
  | failed : List Nat → DumpResult

/-- The body of `dump_packet`'s `try` block (wire.py lines 26-31):
`data.pop(0)` raises AttributeError on a string and IndexError on an empty
list, and `idec` raises TypeError on a nested list. -/
def dump_packet_body (packet : List Nat) : Except PyErr DumpResult :=
  let header := idec (packet.take 4)
  let payload_len := idec ((packet.drop 4).take 4)
  match rlpDecode ((packet.drop 8).take payload_len) with
  | Except.error e => Except.error e
  | Except.ok (Item.str _) => Except.error PyErr.attributeError
  | Except.ok (Item.list []) => Except.error PyErr.indexError
  | Except.ok (Item.list (x :: rest)) =>
    match idecItem x with
    | Except.error e => Except.error e
    | Except.ok n =>
      let cmd := match dictGet cmd_map n with
        | some s => s
        | Option.none => "unknown"
      Except.ok (DumpResult.parsed header payload_len cmd rest)

/-- `dump_packet` (wire.py lines 25-33): the bare `except:` collapses every
failure of the body to the sentinel value. -/
def dump_packet (packet : List Nat) : DumpResult :=
  match dump_packet_body packet with
  | Except.ok r => r
  | Except.error _ => DumpResult.failed packet

theorem idec_append_single (l : List Nat) (b : Nat) : idec (l ++ [b]) = 256 * idec l + b := by
  unfold idec
  rw [List.foldl_append]
  rfl

theorem idec_beAux (f : Nat) : ∀ n, n ≤ f → idec (beAux f n) = n := by
  induction f with
  | zero =>
    intro n hn
    have : n = 0 := Nat.le_zero.mp hn
    subst this
    rfl
  | succ f ih =>
    intro n hn
    match n with
    | 0 => rfl
    | m + 1 =>
      have hdiv : (m + 1) / 256 < m + 1 := Nat.div_lt_self (Nat.succ_pos m) (by omega)
      have : beAux (f + 1) (m + 1) = beAux f ((m + 1) / 256) ++ [(m + 1) % 256] := rfl
      rw [this, idec_append_single, ih ((m + 1) / 256) (by omega)]
      omega

theorem idec_ienc (n : Nat) : idec (ienc n) = n := by
  unfold ienc
  split
  · exact idec_beAux n n le_rfl
  · simp_all [idec]

theorem beAux_length_le (f : Nat) : ∀ n, (beAux f n).length ≤ n := by
  induction f with
  | zero => intro n; simp [beAux]
  | succ f ih =>
    intro n
    match n with
    | 0 => simp [beAux]
    | m + 1 =>
      have : beAux (f + 1) (m + 1) = beAux f ((m + 1) / 256) ++ [(m + 1) % 256] := rfl
      rw [this]
      have h1 := ih ((m + 1) / 256)
      have h2 : (m + 1) / 256 < m + 1 := Nat.div_lt_self (Nat.succ_pos m) (by omega)
      simp only [List.length_append, List.length_cons, List.length_nil]
      omega

theorem beAux_length_le_digits (f : Nat) : ∀ n k, n < 256 ^ k → (beAux f n).length ≤ k := by
  induction f with
  | zero => intro n k _; simp [beAux]
  | succ f ih =>
    intro n k hk
    match n with
    | 0 => simp [beAux]
    | m + 1 =>
      have : beAux (f + 1) (m + 1) = beAux f ((m + 1) / 256) ++ [(m + 1) % 256] := rfl
      rw [this]
      match k with
      | 0 => simp at hk
      | j + 1 =>
        have hj : (m + 1) / 256 < 256 ^ j := by
          rw [Nat.div_lt_iff_lt_mul (by omega)]
          calc m + 1 < 256 ^ (j + 1) := hk
            _ = 256 ^ j * 256 := by ring
        have := ih ((m + 1) / 256) j hj
        simp only [List.length_append, List.length_cons, List.length_nil]
        omega

theorem ienc_length_le_digits (n k : Nat) (h : n < 256 ^ k) : (ienc n).length ≤ k := by
  unfold ienc
  split
  · exact beAux_length_le_digits n n k h
  · simp

theorem rlpStr_length_le (s : List Nat) (h : s.length ≤ 55) :
    (rlpStr s).length ≤ s.length + 1 := by
  unfold rlpStr
  split
  · split
    · simp
    · unfold rlpWithLen
      rw [if_pos (by simp)]
      simp_all
  · unfold rlpWithLen
    rw [if_pos h]
    simp

theorem listIdx_cons_zero (x : Item) (l : List Item) : listIdx (x :: l) 0 = Except.ok x := by
  simp [listIdx]

theorem listIdx_cons_one (x y : Item) (l : List Item) : listIdx (x :: y :: l) 1 = Except.ok y := by
  simp [listIdx]

theorem dump_packet_body_shape (packet : List Nat) (r : DumpResult)
    (h : dump_packet_body packet = Except.ok r) :
    ∃ header payload_len cmd rest, r = DumpResult.parsed header payload_len cmd rest := by
  unfold dump_packet_body at h
  dsimp only at h
  split at h
  · exact Except.noConfusion h
  · exact Except.noConfusion h
  · exact Except.noConfusion h
  · split at h
    · exact Except.noConfusion h
    · injection h with hh
      exact ⟨_, _, _, _, hh.symm⟩

/-- C9: for every input byte sequence, `dump_packet` either returns the
parsed diagnostic value `[header, payload_len, command_name, fields...]`
or, on any failure of the parse, the sentinel `['DUMP Failed', packet]`;
the bare `except:` never lets the failure propagate. -/
theorem dump_packet_never_raises (packet : List Nat) :
    (∃ header payload_len cmd rest,
        dump_packet_body packet = Except.ok (DumpResult.parsed header payload_len cmd rest) ∧
        dump_packet packet = DumpResult.parsed header payload_len cmd rest) ∨
    (∃ e, dump_packet_body packet = Except.error e ∧
        dump_packet packet = DumpResult.failed packet) := by
  cases h : dump_packet_body packet with
  | ok r =>
    obtain ⟨hd, pl, c, rest, rfl⟩ := dump_packet_body_shape packet r h
    left
    refine ⟨hd, pl, c, rest, rfl, ?_⟩
    unfold dump_packet
    rw [h]
  | error e =>
    right
    refine ⟨e, rfl, ?_⟩
    unfold dump_packet
    rw [h]

/-- C10: `send_Hello` always builds a payload of exactly 7 fields ending
with `NODE_ID`: the line-75 binding is `None` but line 78 immediately
rebinds `NODE_ID` to a fixed non-empty 64-byte string, so the conditional
append is always taken. -/
theorem send_Hello_payload_always_has_node_id (cfg : Config) :
    pyLen (send_Hello_payload cfg) = 7 ∧
    pyLast (send_Hello_payload cfg) = some NODE_ID ∧
    NODE_ID_initial = PyVal.none ∧
    NODE_ID = PyVal.str NODE_ID_bytes ∧
    pyTruthy NODE_ID = true ∧
    NODE_ID_bytes.length = 64 ∧ NODE_ID_bytes ≠ [] :=
  ⟨rfl, rfl, rfl, rfl, rfl, rfl, by decide⟩

/-- C8: the minimal integer encoding maps 0 to the empty byte sequence and
decoding is a left inverse of encoding on `[0, 2^64)`. -/
theorem ienc_zero_and_roundtrip : ienc 0 = [] ∧ ∀ n, n < 2 ^ 64 → idec (ienc n) = n :=
  ⟨rfl, fun n _ => idec_ienc n⟩

theorem ienc_zero_and_roundtrip_witness : idec (ienc 305419896) = 305419896 :=
  ienc_zero_and_roundtrip.2 305419896 (by norm_num)

/-- C5 counterexample: `ienc4` already fails at `2^31 < 2^32`, refuting the
claim that it succeeds on all of `[0, 2^32)`. -/
theorem ienc4_fails_below_2_pow_32 :
    ienc4 (2 ^ 31) = Except.error PyErr.structError ∧ (2 ^ 31 : Nat) < 2 ^ 32 := by
  refine ⟨?_, by norm_num⟩
  unfold ienc4
  rw [if_neg (by norm_num)]

/-- C5 (amended): `ienc4` succeeds exactly on `[0, 2^31)` — `struct.pack`
with format `>i` is signed — returning 4 bytes that decode big-endian back
to the argument, and fails with `struct.error` for every `n ≥ 2^31`, in
particular for every `n ≥ 2^32`. -/
theorem ienc4_fixed4_contract (n : Nat) :
    (n < 2 ^ 31 → ∃ l, ienc4 n = Except.ok l ∧ l.length = 4 ∧ idec l = n) ∧
    (2 ^ 31 ≤ n → ienc4 n = Except.error PyErr.structError) := by
  constructor
  · intro h
    refine ⟨[n / 16777216 % 256, n / 65536 % 256, n / 256 % 256, n % 256], ?_, rfl, ?_⟩
    · unfold ienc4
      rw [if_pos h]
    · show idec _ = n
      unfold idec
      simp only [List.foldl]
      omega
  · intro h
    unfold ienc4
    rw [if_neg (by omega)]

theorem ienc4_fixed4_contract_witness :
    (∃ l, ienc4 5 = Except.ok l ∧ l.length = 4 ∧ idec l = 5) ∧
    ienc4 (2 ^ 32) = Except.error PyErr.structError :=
  ⟨(ienc4_fixed4_contract 5).1 (by norm_num), (ienc4_fixed4_contract (2 ^ 32)).2 (by norm_num)⟩

/-- C2 counterexample: the duplicate key 0x02 in `cmd_map_pairs` makes the
later pair (0x02, Pong) overwrite (0x02, Ping): forward lookup of 0x02
yields Pong, not Ping, and Ping has no reverse entry at all. -/
theorem cmd_map_ping_shadowed :
    dictGet cmd_map 0x02 = some "Pong" ∧ dictGet cmd_map_by_name "Ping" = Option.none := by
  decide

/-- C2 (amended): for every pair of the table as actually constructed —
all spec pairs except (0x02, Ping), with 0x02 mapped to Pong — forward
lookup of the opcode yields the name and reverse lookup of the name yields
the opcode. -/
theorem cmd_map_bijective_after_overwrite :
    ∀ p ∈ [((0x00 : Nat), "Hello"), (0x01, "Disconnect"), (0x02, "Pong"),
           (0x10, "GetPeers"), (0x11, "Peers"), (0x12, "Transactions"),
           (0x13, "Blocks"), (0x14, "GetChain"), (0x15, "NotInChain"),
           (0x16, "GetTransactions")],
      dictGet cmd_map p.1 = some p.2 ∧ dictGet cmd_map_by_name p.2 = some p.1 := by
  decide

theorem cmd_map_bijective_after_overwrite_witness :
    dictGet cmd_map 0x00 = some "Hello" ∧ dictGet cmd_map_by_name "Hello" = some 0x00 :=
  cmd_map_bijective_after_overwrite (0x00, "Hello") (by simp)

/-- C4 counterexample: a Disconnect whose first field decodes to the
unmapped reason code 0xff makes `rcv_Disconnect` raise KeyError, and
`remove_peer` is never reached. -/
theorem rcv_Disconnect_unknown_reason_cex :
    rcv_Disconnect ⟨false, false⟩ [Item.str [0xff]] = Except.error PyErr.keyError := by
  decide

/-- C4 (amended): `rcv_Disconnect` calls `remove_peer` without raising for
an empty field list or a first field decoding to a known reason code, but
an unknown reason code raises KeyError (the subscript lookup is unguarded)
and the peer is then not removed. -/
theorem rcv_Disconnect_contract (peer : Peer) (data : List Item) :
    (data = [] → rcv_Disconnect peer data = Except.ok (peer, [Event.removedPeer])) ∧
    (∀ x rest n, data = x :: rest → idecItem x = Except.ok n →
      (dictGet disconnect_reasons_map_by_id n).isSome = true →
      rcv_Disconnect peer data = Except.ok (peer, [Event.removedPeer])) ∧
    (∀ x rest n, data = x :: rest → idecItem x = Except.ok n →
      dictGet disconnect_reasons_map_by_id n = Option.none →
      rcv_Disconnect peer data = Except.error PyErr.keyError) := by
  refine ⟨?_, ?_, ?_⟩
  · rintro rfl
    rfl
  · rintro x rest n rfl hx hsome
    obtain ⟨v, hv⟩ := Option.isSome_iff_exists.mp hsome
    simp only [rcv_Disconnect, hx, hv]
  · rintro x rest n rfl hx hnone
    simp only [rcv_Disconnect, hx, hnone]

theorem rcv_Disconnect_contract_witness :
    rcv_Disconnect ⟨false, false⟩ [] = Except.ok (⟨false, false⟩, [Event.removedPeer]) :=
  (rcv_Disconnect_contract ⟨false, false⟩ []).1 rfl

/-- C1: evaluation of `rcv_packet` on the two frames of the claim. A
well-formed frame whose field list is exactly `[0x02]` is dispatched to
`rcv_Pong` — a no-op, with no Pong reply — because the duplicate dict key
makes `cmd_map[0x02] = Pong`; and a well-formed frame carrying `[0x03]`
is not a no-op: 0x03 is missing from `cmd_map`, so the node sends a
Disconnect with reason Bad protocol (code 0x02). This contradicts the
claim and the send-path opcodes (`send_Ping` emits 0x02, `send_Pong`
emits 0x03). -/
theorem rcv_packet_ping_pong_eval :
    rcv_packet ⟨30303⟩ ⟨false, false⟩ [0x22, 0x40, 0x08, 0x91, 0, 0, 0, 2, 0xc1, 0x02] =
      Except.ok (⟨false, false⟩, []) ∧
    rcv_packet ⟨30303⟩ ⟨false, false⟩ [0x22, 0x40, 0x08, 0x91, 0, 0, 0, 2, 0xc1, 0x03] =
      Except.ok (⟨false, false⟩,
        [Event.sent (pyList [PyVal.int 0x01, PyVal.int 0x02])
          [0x22, 0x40, 0x08, 0x91, 0, 0, 0, 3, 0xc2, 0x01, 0x02]]) ∧
    dictGet cmd_map 0x02 = some "Pong" ∧ dictGet cmd_map 0x03 = Option.none := by
  refine ⟨?_, ?_, by decide, by decide⟩
  · decide
  · decide

/-- C3 counterexample: a packet that is exactly the 4-byte sync token
declares payload length 0 but is shorter than 8 bytes; `rcv_packet` raises
AssertionError instead of sending a Disconnect. -/
theorem rcv_packet_truncated_cex :
    rcv_packet ⟨30303⟩ ⟨false, false⟩ [0x22, 0x40, 0x08, 0x91] =
      Except.error PyErr.assertionError := by
  decide

/-- C3 (amended): for every packet whose first 4 bytes match the sync token
but whose total length is less than 8 plus the declared payload length
(including packets shorter than 8 bytes), `rcv_packet` fails the
`assert 8 + payload_len <= len(packet)` guard and the AssertionError
propagates to the caller; no Disconnect is sent for such packets. -/
theorem rcv_packet_truncated_asserts (cfg : Config) (peer : Peer) (packet : List Nat)
    (hsync : packet.take 4 = ienc SYNCHRONIZATION_TOKEN)
    (hlen : packet.length < 8 + idec ((packet.drop 4).take 4)) :
    rcv_packet cfg peer packet = Except.error PyErr.assertionError := by
  unfold rcv_packet
  have h4 : (ienc SYNCHRONIZATION_TOKEN).length = 4 := rfl
  rw [h4]
  rw [if_neg (fun hne => hne hsync)]
  dsimp only
  rw [if_pos (by omega)]

theorem rcv_packet_truncated_asserts_witness :
    rcv_packet ⟨30303⟩ ⟨false, false⟩ [0x22, 0x40, 0x08, 0x91, 0, 0, 0, 9, 0] =
      Except.error PyErr.assertionError :=
  rcv_packet_truncated_asserts ⟨30303⟩ ⟨false, false⟩ _ (by decide) (by decide)

/-- C6: a Hello whose first field decodes to a protocol version different
from the local `PROTOCOL_VERSION` (0x08) makes `rcv_Hello` send a
Disconnect with reason Incompatible network protocols (field list
`[0x01, 0x07]`) and leave the peer record unchanged, so `hello_received`
stays false. -/
theorem rcv_Hello_version_mismatch (cfg : Config) (peer : Peer) (x : Item) (rest : List Item)
    (v : Nat) (hx : idecItem x = Except.ok v) (hv : v ≠ PROTOCOL_VERSION)
    (hr : peer.hello_received = false) :
    rcv_Hello cfg peer (x :: rest) =
      Except.ok (peer, [Event.sent (pyList [PyVal.int 0x01, PyVal.int 0x07])
        [0x22, 0x40, 0x08, 0x91, 0, 0, 0, 3, 0xc2, 0x01, 0x07]]) ∧
    peer.hello_received = false := by
  refine ⟨?_, hr⟩
  simp only [rcv_Hello, listIdx_cons_zero, hx]
  rw [if_pos hv]
  rfl

theorem rcv_Hello_version_mismatch_witness :
    rcv_Hello ⟨30303⟩ ⟨false, false⟩ [Item.str [0x01]] =
      Except.ok (⟨false, false⟩, [Event.sent (pyList [PyVal.int 0x01, PyVal.int 0x07])
        [0x22, 0x40, 0x08, 0x91, 0, 0, 0, 3, 0xc2, 0x01, 0x07]]) ∧
    (⟨false, false⟩ : Peer).hello_received = false :=
  rcv_Hello_version_mismatch ⟨30303⟩ ⟨false, false⟩ (Item.str [0x01]) [] 1 rfl (by decide) rfl

theorem rlpEncode_hello (cfg : Config) :
    rlpEncode (list_ienc (send_Hello_payload cfg)) =
      Except.ok (rlpWithLen 0xc0
        ([0x80] ++ ([0x08] ++ ([0x80] ++ ((0x92 :: CLIENT_ID) ++
          (rlpStr (ienc cfg.port) ++ ([0x07] ++ ((0xb8 :: 0x40 :: NODE_ID_bytes) ++
            ([] : List Nat))))))))) :=
  rfl

theorem send_packet_ok_of_encode (peer : Peer) (data : PyVal) (p : List Nat)
    (henc : rlpEncode (list_ienc data) = Except.ok p) (hlen : p.length < 2 ^ 31) :
    send_packet peer data = Except.ok (peer, [Event.sent data
      ([0x22, 0x40, 0x08, 0x91] ++
        [p.length / 16777216 % 256, p.length / 65536 % 256, p.length / 256 % 256,
         p.length % 256] ++ p)]) := by
  have htok : ienc4 SYNCHRONIZATION_TOKEN = Except.ok [0x22, 0x40, 0x08, 0x91] := rfl
  simp only [send_packet, henc, htok]
  unfold ienc4
  rw [if_pos hlen]

theorem rlpWithLen_length_le (base : Nat) (payload : List Nat) :
    (rlpWithLen base payload).length ≤ 2 * payload.length + 2 := by
  unfold rlpWithLen
  split
  · simp only [List.length_cons]
    omega
  · have hbe := beAux_length_le payload.length payload.length
    unfold int_to_big_endian
    simp only [List.length_cons, List.length_append]
    omega

theorem send_packet_hello_ok (peer : Peer) (cfg : Config) (hport : cfg.port < 65536) :
    ∃ pkt, send_packet peer (send_Hello_payload cfg) =
      Except.ok (peer, [Event.sent (send_Hello_payload cfg) pkt]) := by
  have h2 : (ienc cfg.port).length ≤ 2 := ienc_length_le_digits cfg.port 2 (by omega)
  have hs : (rlpStr (ienc cfg.port)).length ≤ 3 := by
    have := rlpStr_length_le (ienc cfg.port) (by omega)
    omega
  have hq : ([0x80] ++ ([0x08] ++ ([0x80] ++ ((0x92 :: CLIENT_ID) ++
      (rlpStr (ienc cfg.port) ++ ([0x07] ++ ((0xb8 :: 0x40 :: NODE_ID_bytes) ++
        ([] : List Nat)))))))).length = 89 + (rlpStr (ienc cfg.port)).length := by
    simp [CLIENT_ID, NODE_ID_bytes]
    omega
  have hb := rlpWithLen_length_le 0xc0
    ([0x80] ++ ([0x08] ++ ([0x80] ++ ((0x92 :: CLIENT_ID) ++
      (rlpStr (ienc cfg.port) ++ ([0x07] ++ ((0xb8 :: 0x40 :: NODE_ID_bytes) ++
        ([] : List Nat))))))))
  exact ⟨_, send_packet_ok_of_encode peer _ _ (rlpEncode_hello cfg) (by omega)⟩

/-- C7: a Hello whose first field decodes to the local `PROTOCOL_VERSION`
and whose second field decodes to the local `NETWORK_ID` makes `rcv_Hello`
set `hello_received`; if `hello_sent` is still false it also runs
`send_Hello`, which sends the Hello packet and sets `hello_sent`, and if
`hello_sent` is already true no reply Hello is sent. (The port read from
the configuration is a TCP listen port, hence below 65536.) -/
theorem rcv_Hello_matching_handshake (cfg : Config) (peer : Peer) (x y : Item)
    (rest : List Item) (hx : idecItem x = Except.ok PROTOCOL_VERSION)
    (hy : idecItem y = Except.ok NETWORK_ID) (hport : cfg.port < 65536) :
    (peer.hello_sent = true →
      rcv_Hello cfg peer (x :: y :: rest) =
        Except.ok ({peer with hello_received := true}, [])) ∧
    (peer.hello_sent = false →
      ∃ pkt, rcv_Hello cfg peer (x :: y :: rest) =
        Except.ok ({peer with hello_sent := true, hello_received := true},
          [Event.sent (send_Hello_payload cfg) pkt])) := by
  have hmain : rcv_Hello cfg peer (x :: y :: rest) =
      (if !peer.hello_sent then send_Hello cfg {peer with hello_received := true}
       else Except.ok ({peer with hello_received := true}, [])) := by
    simp only [rcv_Hello, listIdx_cons_zero, listIdx_cons_one, hx, hy]
    rw [if_neg (by simp), if_neg (by simp)]
  constructor
  · intro hsent
    rw [hmain, hsent]
    rfl
  · intro hsent
    obtain ⟨pkt, hpkt⟩ := send_packet_hello_ok {peer with hello_received := true} cfg hport
    rw [hsent] at hpkt
    refine ⟨pkt, ?_⟩
    rw [hmain, hsent]
    show send_Hello cfg {hello_sent := false, hello_received := true} = _
    unfold send_Hello
    rw [hpkt]

theorem rcv_Hello_matching_handshake_witness :
    ∃ pkt, rcv_Hello ⟨30303⟩ ⟨false, false⟩ [Item.str [0x08], Item.str []] =
      Except.ok (⟨true, true⟩, [Event.sent (send_Hello_payload ⟨30303⟩) pkt]) :=
  (rcv_Hello_matching_handshake ⟨30303⟩ ⟨false, false⟩ (Item.str [0x08]) (Item.str []) []
    rfl rfl (by norm_num)).2 rfl
